import Mathlib

/-!
Verification of the Quality Audit application's core logic.

The definitions below are a shallow embedding of the scoring engine,
duplicate checker and record builder found inline in `main_form` of
src/app.py, and of the reporting aggregator of src/Quality_Audit.py.
Numeric scores are modelled as rationals (Python numbers), selections as
the lists produced by the multiselect widgets, and the CSV-loaded rule
table as an association list.
-/

namespace QualityAudit

/-- One sub-reason's entry in the scoring-rule table:
`scoring_dict[param][sub_param] = {"score": score, "fatal": fatal}`
(src/app.py, `load_scoring_rules`). `score` is the point deduction. -/
structure SubRule where
  score : ℚ
  fatal : Bool
deriving DecidableEq

/-- The sub-reason table of one parameter (`sub_dict`). -/
abbrev SubDict := List (String × SubRule)

/-- The full scoring-rule table (`scoring_rules`), ordered as iterated. -/
abbrev RuleTable := List (String × SubDict)

/-- `sub_dict.get(sub_param, {"score": 0, "fatal": False})` (src/app.py line 337). -/
def lookupSub (d : SubDict) (name : String) : SubRule :=
  match d.find? (fun kv => kv.1 == name) with
  | some kv => kv.2
  | none => { score := 0, fatal := false }

/-- `set(selected) == {"Compliant"}` (src/app.py line 332): the selected list is
nonempty and every selected reason is `"Compliant"`. -/
def isOnlyCompliant (sel : List String) : Bool :=
  !sel.isEmpty && sel.all (fun r => r == "Compliant")

/-- One iteration of the deduction loop of src/app.py lines 335-340: skip
`"Compliant"`, subtract the looked-up deduction, accumulate the fatal flag. -/
def dedStep (d : SubDict) (acc : ℚ × Bool) (r : String) : ℚ × Bool :=
  if r == "Compliant" then acc
  else (acc.1 - (lookupSub d r).score, acc.2 || (lookupSub d r).fatal)

/-- The per-parameter scoring of src/app.py lines 331-341: the score and the
fatal contribution from the selected reasons' own fatal flags. -/
def parameterScore (maxScore : ℚ) (d : SubDict) (sel : List String) : ℚ × Bool :=
  if isOnlyCompliant sel then (maxScore, false)
  else
    let folded := sel.foldl (dedStep d) (maxScore, false)
    (max 0 folded.1, folded.2)

/-- The two designated parameters of src/app.py line 328. -/
def isKeyParam (p : String) : Bool :=
  p == "Right action taken" || p == "Correct and Complete Resolution"

/-- src/app.py line 328: force FATAL when a designated parameter's selected
list does not contain `"Compliant"`. -/
def paramForceFatal (p : String) (sel : List String) : Bool :=
  isKeyParam p && !(sel.contains "Compliant")

/-- One row of the `results` list built at src/app.py lines 346-350
(reasons kept as the selected list before joining). -/
structure ParamResult where
  parameter : String
  selectedReasons : List String
  score : ℚ
deriving DecidableEq

/-- The accumulated state of the parameter loop of src/app.py lines 317-350:
`results`, `total_score`, `fatal_error`. -/
structure EngineOut where
  results : List ParamResult
  totalScore : ℚ
  fatalError : Bool
deriving DecidableEq

/-- One iteration of the parameter loop (src/app.py lines 319-350) for the
parameter `pd.1` with sub-table `pd.2`. -/
def stepParam (maxScores : String → ℚ) (sels : String → List String)
    (st : EngineOut) (pd : String × SubDict) : EngineOut :=
  let sel := sels pd.1
  let forced := paramForceFatal pd.1 sel
  let scored := parameterScore (maxScores pd.1) pd.2 sel
  { results := st.results ++ [⟨pd.1, sel, scored.1⟩]
    totalScore := st.totalScore + scored.1
    fatalError := (st.fatalError || forced) || scored.2 }

/-- The whole scoring pass over the rule table (src/app.py lines 317-350),
starting from `total_score, fatal_error, results = 0, False, []`. -/
def runEngine (table : RuleTable) (maxScores : String → ℚ)
    (sels : String → List String) : EngineOut :=
  table.foldl (stepParam maxScores sels) ⟨[], 0, false⟩

/-- The hard-coded `parameter_scores` dict of src/app.py lines 298-308
(as a lookup function; only queried at the keys present there). -/
def parameter_scores : String → ℚ := fun p =>
  if p == "Opening and Closing" then 9
  else if p == "Communication and Language" then 30
  else if p == "Empathy and Professionalism" then 21
  else if p == "Correct and Complete Resolution" then 0
  else if p == "Proactive Assistance" then 24
  else if p == "Hold and Dead air" then 8
  else if p == "Right action taken" then 0
  else if p == "Properties" then 8
  else if p == "PCIR" then 0
  else 0

/-- The tag shown by `st.metric` at src/app.py line 355. -/
inductive ScoreTag
  | ZTP
  | Fatal
  | Numeric
deriving DecidableEq

/-- `final_score_display = 0 if ztp_flag == "Yes" or fatal_error else total_score`
(src/app.py line 354). -/
def finalScoreDisplay (ztpFlag fatalError : Bool) (totalScore : ℚ) : ℚ :=
  if ztpFlag || fatalError then 0 else totalScore

/-- The tag choice of src/app.py line 355. -/
def overallTag (ztpFlag fatalError : Bool) : ScoreTag :=
  if ztpFlag then ScoreTag.ZTP
  else if fatalError then ScoreTag.Fatal
  else ScoreTag.Numeric

/-- The displayed overall score together with its tag (src/app.py lines 354-355). -/
def displayedScore (ztpFlag fatalError : Bool) (totalScore : ℚ) : ℚ × ScoreTag :=
  (finalScoreDisplay ztpFlag fatalError totalScore, overallTag ztpFlag fatalError)

/-- Specification-side sum of the deductions of the selected non-Compliant
reasons, for comparison with the imperative loop. -/
def deductionSum (d : SubDict) (sel : List String) : ℚ :=
  ((sel.filter (fun r => !(r == "Compliant"))).map (fun r => (lookupSub d r).score)).sum

/-- The fatal test the deduction loop applies to one selected reason. -/
def reasonFatal (d : SubDict) (r : String) : Bool :=
  !(r == "Compliant") && (lookupSub d r).fatal

lemma dedFold_spec (d : SubDict) (sel : List String) (a : ℚ) (b : Bool) :
    sel.foldl (dedStep d) (a, b)
      = (a - deductionSum d sel, b || sel.any (reasonFatal d)) := by
  induction sel generalizing a b with
  | nil => simp [deductionSum]
  | cons x xs ih =>
    by_cases hx : x == "Compliant"
    · simp [dedStep, hx, ih, deductionSum, reasonFatal]
    · simp only [List.foldl_cons, dedStep, hx, if_neg, Bool.false_eq_true,
        not_false_iff, ih, Prod.mk.injEq]
      constructor
      · simp [deductionSum, hx]
        ring
      · simp [reasonFatal, hx, Bool.or_assoc]

lemma parameterScore_fst (ms : ℚ) (d : SubDict) (sel : List String) :
    (parameterScore ms d sel).1
      = if isOnlyCompliant sel then ms else max 0 (ms - deductionSum d sel) := by
  by_cases h : isOnlyCompliant sel
  · simp [parameterScore, h]
  · simp [parameterScore, h, dedFold_spec]

lemma parameterScore_snd (ms : ℚ) (d : SubDict) (sel : List String) :
    (parameterScore ms d sel).2 = sel.any (reasonFatal d) := by
  by_cases h : isOnlyCompliant sel
  · have hall : ∀ r ∈ sel, r = "Compliant" := by
      intro r hr
      have := (Bool.and_eq_true _ _).mp h
      have h2 := List.all_eq_true.mp this.2 r hr
      exact eq_of_beq h2
    simp only [parameterScore, h, if_pos]
    symm
    rw [List.any_eq_false]
    intro r hr
    simp [reasonFatal, hall r hr]
  · simp [parameterScore, h, dedFold_spec]

lemma lookupSub_score_nonneg (d : SubDict) (hd : ∀ kv ∈ d, 0 ≤ kv.2.score)
    (r : String) : 0 ≤ (lookupSub d r).score := by
  unfold lookupSub
  cases hfind : d.find? (fun kv => kv.1 == r) with
  | none => simp
  | some kv =>
    have := List.mem_of_find?_eq_some hfind
    simpa using hd kv this

lemma deductionSum_nonneg (d : SubDict) (sel : List String)
    (hd : ∀ kv ∈ d, 0 ≤ kv.2.score) : 0 ≤ deductionSum d sel := by
  unfold deductionSum
  apply List.sum_nonneg
  intro q hq
  rcases List.mem_map.mp hq with ⟨r, _, rfl⟩
  exact lookupSub_score_nonneg d hd r

lemma contains_iff_mem {l : List String} {a : String} :
    l.contains a = true ↔ a ∈ l := by
  simp [List.contains]

lemma runEngine_foldl_fatal (table : RuleTable) (ms : String → ℚ)
    (sels : String → List String) (st : EngineOut) :
    (table.foldl (stepParam ms sels) st).fatalError
      = (st.fatalError ||
          table.any (fun pd =>
            paramForceFatal pd.1 (sels pd.1)
              || (parameterScore (ms pd.1) pd.2 (sels pd.1)).2)) := by
  induction table generalizing st with
  | nil => simp
  | cons x xs ih =>
    simp only [List.foldl_cons, ih, List.any_cons, stepParam]
    cases st.fatalError <;> simp [Bool.or_assoc]

/-- `fatal_error` at the end of the loop is true exactly when some parameter
either triggers the designated-parameter rule or has a selected fatal reason. -/
lemma runEngine_fatal (table : RuleTable) (ms : String → ℚ)
    (sels : String → List String) :
    (runEngine table ms sels).fatalError
      = table.any (fun pd =>
          paramForceFatal pd.1 (sels pd.1) || (sels pd.1).any (reasonFatal pd.2)) := by
  unfold runEngine
  rw [runEngine_foldl_fatal]
  simp only [Bool.false_or]
  congr 1
  funext pd
  rw [parameterScore_snd]

lemma runEngine_foldl_total (table : RuleTable) (ms : String → ℚ)
    (sels : String → List String) (st : EngineOut) :
    (table.foldl (stepParam ms sels) st).totalScore
      = st.totalScore
        + (table.map (fun pd => (parameterScore (ms pd.1) pd.2 (sels pd.1)).1)).sum := by
  induction table generalizing st with
  | nil => simp
  | cons x xs ih =>
    simp only [List.foldl_cons, ih, List.map_cons, List.sum_cons, stepParam]
    ring

lemma runEngine_foldl_results (table : RuleTable) (ms : String → ℚ)
    (sels : String → List String) (st : EngineOut) :
    (table.foldl (stepParam ms sels) st).results
      = st.results
        ++ table.map (fun pd =>
            ⟨pd.1, sels pd.1, (parameterScore (ms pd.1) pd.2 (sels pd.1)).1⟩) := by
  induction table generalizing st with
  | nil => simp
  | cons x xs ih =>
    simp only [List.foldl_cons, ih, List.map_cons, stepParam]
    simp

/-- `total_score` is the sum of the per-parameter scores recorded in `results`. -/
lemma runEngine_total_eq_sum_results (table : RuleTable) (ms : String → ℚ)
    (sels : String → List String) :
    (runEngine table ms sels).totalScore
      = ((runEngine table ms sels).results.map ParamResult.score).sum := by
  unfold runEngine
  rw [runEngine_foldl_total, runEngine_foldl_results]
  simp [List.map_map]
  congr 1

/-- C1: for every parameter and selection, a selection equal to {"Compliant"}
returns the parameter's maxScore; otherwise the score is
max(0, maxScore - sum of the deductions of the selected non-Compliant
reasons); hence (for a rule table with nonnegative deductions and a
nonnegative maxScore) the score is never negative and never exceeds
maxScore. -/
theorem C1_parameterScore_spec (ms : ℚ) (d : SubDict) (sel : List String)
    (hms : 0 ≤ ms) (hd : ∀ kv ∈ d, 0 ≤ kv.2.score) :
    (isOnlyCompliant sel = true → (parameterScore ms d sel).1 = ms) ∧
    (isOnlyCompliant sel = false →
      (parameterScore ms d sel).1 = max 0 (ms - deductionSum d sel)) ∧
    0 ≤ (parameterScore ms d sel).1 ∧ (parameterScore ms d sel).1 ≤ ms := by
  have hded := deductionSum_nonneg d sel hd
  have hfst := parameterScore_fst ms d sel
  refine ⟨?_, ?_, ?_, ?_⟩
  · intro h; rw [hfst]; simp [h]
  · intro h; rw [hfst]; simp [h]
  · rw [hfst]; split
    · exact hms
    · exact le_max_left 0 _
  · rw [hfst]; split
    · exact le_refl ms
    · exact max_le hms (by linarith)

theorem C1_witness :
    (0:ℚ) ≤ 9 ∧
    0 ≤ (parameterScore 9 [("Script and Guidelines adherence", ⟨3, false⟩)]
          ["Script and Guidelines adherence"]).1 ∧
    (parameterScore 9 [("Script and Guidelines adherence", ⟨3, false⟩)]
          ["Script and Guidelines adherence"]).1 ≤ 9 :=
  ⟨by norm_num,
   (C1_parameterScore_spec 9 [("Script and Guidelines adherence", ⟨3, false⟩)]
      ["Script and Guidelines adherence"] (by norm_num) (by decide)).2.2⟩

/-- C2 as stated is false: for the designated parameter "Right action taken",
a selection containing "Compliant" together with another (non-fatal) reason
is not exactly {"Compliant"}, yet the code (which tests
`"Compliant" not in selected`) does not force fatalError. -/
theorem C2_counterexample :
    (runEngine [("Right action taken", [("Wrong workflow", ⟨2, false⟩)])]
        parameter_scores
        (fun p => if p == "Right action taken"
                  then ["Compliant", "Wrong workflow"] else ["Compliant"])).fatalError
      = false := by decide

/-- C2 amended: for the designated parameters the fatalError flag is forced
true whenever the selected list does not CONTAIN "Compliant" (in particular
for the empty selection), even if no selected sub-reason is fatal-flagged;
a selection containing "Compliant" alongside other reasons does not trigger
the parameter-level rule. -/
theorem C2_amended (table : RuleTable) (ms : String → ℚ) (sels : String → List String)
    (p : String) (d : SubDict) (hmem : (p, d) ∈ table) (hkey : isKeyParam p = true)
    (hsel : (sels p).contains "Compliant" = false) :
    (runEngine table ms sels).fatalError = true ∧
    ∀ sel2 : List String, sel2.contains "Compliant" = true →
      paramForceFatal p sel2 = false := by
  constructor
  · rw [runEngine_fatal, List.any_eq_true]
    refine ⟨(p, d), hmem, ?_⟩
    have hnotmem : "Compliant" ∉ sels p := by
      intro hm
      rw [contains_iff_mem.mpr hm] at hsel
      exact Bool.noConfusion hsel
    simp [paramForceFatal, hkey, hnotmem]
  · intro sel2 h2
    have hm : "Compliant" ∈ sel2 := contains_iff_mem.mp h2
    simp [paramForceFatal, hm]

theorem C2_amended_witness :
    (runEngine [("Right action taken", [("Wrong workflow", ⟨2, false⟩)])]
        parameter_scores (fun _ => ["Wrong workflow"])).fatalError = true :=
  (C2_amended [("Right action taken", [("Wrong workflow", ⟨2, false⟩)])]
      parameter_scores (fun _ => ["Wrong workflow"])
      "Right action taken" [("Wrong workflow", ⟨2, false⟩)]
      (by simp) (by decide) (by decide)).1

/-- C3: the displayed score follows the strict precedence of src/app.py lines
354-355: ZTP gives (0, "ZTP") regardless of fatalError and totalScore, else
fatal gives (0, "Fatal"), else the total score is displayed; and the
engine's totalScore is the sum of the per-parameter scores. -/
theorem C3_display_precedence (table : RuleTable) (ms : String → ℚ)
    (sels : String → List String) (ztp : Bool) :
    displayedScore ztp (runEngine table ms sels).fatalError
        (runEngine table ms sels).totalScore
      = (if ztp then ((0:ℚ), ScoreTag.ZTP)
         else if (runEngine table ms sels).fatalError then ((0:ℚ), ScoreTag.Fatal)
         else ((runEngine table ms sels).totalScore, ScoreTag.Numeric)) ∧
    (runEngine table ms sels).totalScore
      = ((runEngine table ms sels).results.map ParamResult.score).sum := by
  refine ⟨?_, runEngine_total_eq_sum_results table ms sels⟩
  cases ztp <;> cases hf : (runEngine table ms sels).fatalError <;>
    simp [displayedScore, finalScoreDisplay, overallTag, hf]

/-- C4 as stated is false: fatalError is not monotonic over selections.
For "Correct and Complete Resolution" with only the non-fatal reason
"Incomplete resolution" selected, fatalError is true; adding the further
reason "Compliant" to that selection clears it. Likewise the selection
["Incomplete resolution", "Compliant"] differs from {"Compliant"} on a
fatal-designated parameter without fatalError being true. -/
theorem C4_counterexample :
    (runEngine [("Correct and Complete Resolution",
        [("Incomplete resolution", ⟨3, false⟩)])]
        parameter_scores (fun _ => ["Incomplete resolution"])).fatalError = true ∧
    (runEngine [("Correct and Complete Resolution",
        [("Incomplete resolution", ⟨3, false⟩)])]
        parameter_scores
        (fun _ => ["Incomplete resolution", "Compliant"])).fatalError = false :=
  ⟨by decide, by decide⟩

/-- C4 amended: fatalError is true once any parameter of the table either
triggers the designated-parameter rule (its selection omits "Compliant") or
has a selected fatal-flagged non-Compliant reason; and fatalError is
monotonic under enlarging selections with further NON-Compliant reasons
(enlargements that do not newly add "Compliant"): such additions can only
set it true, never clear it. Adding "Compliant" itself to a designated
parameter's selection can clear it. -/
theorem C4_amended (table : RuleTable) (ms : String → ℚ)
    (sels sels2 : String → List String) :
    ((∃ pd ∈ table, paramForceFatal pd.1 (sels pd.1) = true ∨
        ∃ r ∈ sels pd.1, reasonFatal pd.2 r = true) →
      (runEngine table ms sels).fatalError = true) ∧
    ((∀ p r, r ∈ sels p → r ∈ sels2 p) →
     (∀ p, "Compliant" ∈ sels2 p → "Compliant" ∈ sels p) →
     (runEngine table ms sels).fatalError = true →
     (runEngine table ms sels2).fatalError = true) := by
  constructor
  · rintro ⟨pd, hmem, h⟩
    rw [runEngine_fatal, List.any_eq_true]
    refine ⟨pd, hmem, ?_⟩
    rcases h with h | ⟨r, hr, hf⟩
    · simp [h]
    · have hany : (sels pd.1).any (reasonFatal pd.2) = true :=
        List.any_eq_true.mpr ⟨r, hr, hf⟩
      simp [hany]
  · intro hsub hcomp hfat
    rw [runEngine_fatal, List.any_eq_true]
    rw [runEngine_fatal, List.any_eq_true] at hfat
    rcases hfat with ⟨pd, hmem, htrig⟩
    refine ⟨pd, hmem, ?_⟩
    rw [Bool.or_eq_true] at htrig
    rcases htrig with hforce | hany
    · simp only [paramForceFatal, Bool.and_eq_true] at hforce
      obtain ⟨hkey, hncon⟩ := hforce
      have hncon1 : (sels pd.1).contains "Compliant" = false := by
        cases h : (sels pd.1).contains "Compliant"
        · rfl
        · rw [h] at hncon; simp at hncon
      have hncon2 : (sels2 pd.1).contains "Compliant" = false := by
        cases h : (sels2 pd.1).contains "Compliant"
        · rfl
        · exfalso
          have hmem2 : "Compliant" ∈ sels2 pd.1 := contains_iff_mem.mp h
          have hmem1 : "Compliant" ∈ sels pd.1 := hcomp pd.1 hmem2
          have hc : (sels pd.1).contains "Compliant" = true := contains_iff_mem.mpr hmem1
          rw [hc] at hncon1
          simp at hncon1
      have hforce2 : paramForceFatal pd.1 (sels2 pd.1) = true := by
        have hnm : "Compliant" ∉ sels2 pd.1 := by
          intro hm
          rw [contains_iff_mem.mpr hm] at hncon2
          exact Bool.noConfusion hncon2
        simp [paramForceFatal, hkey, hnm]
      simp [hforce2]
    · rcases List.any_eq_true.mp hany with ⟨r, hr, hf⟩
      have hr2 : r ∈ sels2 pd.1 := hsub pd.1 r hr
      have hany2 : (sels2 pd.1).any (reasonFatal pd.2) = true :=
        List.any_eq_true.mpr ⟨r, hr2, hf⟩
      simp [hany2]

theorem C4_amended_witness :
    (runEngine [("Communication and Language", [("Rude tone", ⟨5, true⟩)])]
        parameter_scores (fun _ => ["Rude tone"])).fatalError = true ∧
    (runEngine [("Communication and Language", [("Rude tone", ⟨5, true⟩)])]
        parameter_scores (fun _ => ["Rude tone", "Grammar errors"])).fatalError = true :=
  ⟨(C4_amended [("Communication and Language", [("Rude tone", ⟨5, true⟩)])]
      parameter_scores (fun _ => ["Rude tone"]) (fun _ => ["Rude tone"])).1
      ⟨("Communication and Language", [("Rude tone", ⟨5, true⟩)]), by simp,
       Or.inr ⟨"Rude tone", by simp, by decide⟩⟩,
   (C4_amended [("Communication and Language", [("Rude tone", ⟨5, true⟩)])]
      parameter_scores (fun _ => ["Rude tone"])
      (fun _ => ["Rude tone", "Grammar errors"])).2
      (by intro p r hr; simp at hr; simp [hr]) (by intro p h; simp at h)
      ((C4_amended [("Communication and Language", [("Rude tone", ⟨5, true⟩)])]
          parameter_scores (fun _ => ["Rude tone"]) (fun _ => ["Rude tone"])).1
        ⟨("Communication and Language", [("Rude tone", ⟨5, true⟩)]), by simp,
         Or.inr ⟨"Rude tone", by simp, by decide⟩⟩)⟩

/-- C5 as stated is false: for the fatal-designated parameter
"Right action taken", an empty selection forces fatalError = true while the
selection ["Compliant"] leaves it false, so the engine's complete output on
the empty selection is not identical to its output on {"Compliant"}. -/
theorem C5_counterexample :
    (runEngine [("Right action taken", [("No action taken", ⟨1, false⟩)])]
        parameter_scores (fun _ => [])).fatalError = true ∧
    (runEngine [("Right action taken", [("No action taken", ⟨1, false⟩)])]
        parameter_scores (fun _ => ["Compliant"])).fatalError = false :=
  ⟨by decide, by decide⟩

/-- C5 amended: the per-parameter score and the per-reason fatal contribution
are identical for the empty selection and for ["Compliant"] (given a
nonnegative maxScore), and for non-designated parameters the forced-fatal
flag is identical too, so the output is identical for them; but for the two
fatal-designated parameters the empty selection forces fatalError while
["Compliant"] does not. -/
theorem C5_amended (ms : ℚ) (d : SubDict) (p : String) (hms : 0 ≤ ms) :
    parameterScore ms d [] = parameterScore ms d ["Compliant"] ∧
    (isKeyParam p = false → paramForceFatal p [] = paramForceFatal p ["Compliant"]) ∧
    (isKeyParam p = true →
      paramForceFatal p [] = true ∧ paramForceFatal p ["Compliant"] = false) := by
  refine ⟨?_, ?_, ?_⟩
  · have h1 : parameterScore ms d [] = (max 0 ms, false) := by
      simp [parameterScore, isOnlyCompliant]
    have h2 : parameterScore ms d ["Compliant"] = (ms, false) := by
      simp [parameterScore, isOnlyCompliant]
    rw [h1, h2, max_eq_right hms]
  · intro h; simp [paramForceFatal, h]
  · intro h; exact ⟨by simp [paramForceFatal, h], by simp [paramForceFatal, h]⟩

theorem C5_amended_witness :
    parameterScore 8 [("Delay in response", ⟨2, false⟩)] []
      = parameterScore 8 [("Delay in response", ⟨2, false⟩)] ["Compliant"] ∧
    paramForceFatal "Properties" [] = paramForceFatal "Properties" ["Compliant"] :=
  ⟨(C5_amended 8 [("Delay in response", ⟨2, false⟩)] "Properties" (by norm_num)).1,
   (C5_amended 8 [("Delay in response", ⟨2, false⟩)] "Properties"
      (by norm_num)).2.1 (by decide)⟩

/-- Python `str.strip` whitespace test, for the ASCII whitespace range. -/
def pyIsSpace (c : Char) : Bool :=
  c == ' ' || c == '\t' || c == '\n' || c == '\r' || c == '\x0b' || c == '\x0c'

/-- Python `str.strip()`: drop whitespace from both ends. -/
def pyStrip (s : List Char) : List Char :=
  ((s.dropWhile pyIsSpace).reverse.dropWhile pyIsSpace).reverse

/-- `.strip().lower()`, the normalization applied to both comparison keys of
the duplicate check (src/app.py lines 268-269). -/
def normKey (s : List Char) : List Char :=
  (pyStrip s).map Char.toLower

/-- One stored record reduced to the duplicate-check fields:
`data.get("Freshdesk-Ticket or Spriklr-Case-ID", "")` and
`data.get("Associate Email ID", "")`, both as strings. -/
abbrev DupRecord := List Char × List Char

/-- `is_duplicate_entity` (src/app.py lines 257-274) over the listed and
successfully parsed records. -/
def is_duplicate_entity (entityId associateEmail : List Char)
    (records : List DupRecord) : Bool :=
  records.any (fun rec =>
    normKey rec.1 == normKey entityId && normKey rec.2 == normKey associateEmail)

/-- A record-source failure (connectivity or similar). -/
inductive StoreErr
  | connectivity
deriving DecidableEq

/-- `is_duplicate_entity` with the record source's failure modes explicit: the
listing itself may fail (`bucket.list_blobs()` raising propagates out of the
function), and each individual record read may fail, which the bare
`except: continue` of src/app.py lines 272-273 silently skips. -/
def is_duplicate_entity_io (entityId associateEmail : List Char)
    (listing : Except StoreErr (List (Except StoreErr DupRecord))) :
    Except StoreErr Bool :=
  match listing with
  | Except.error err => Except.error err
  | Except.ok blobs =>
      Except.ok (blobs.any fun blob =>
        match blob with
        | Except.error _ => false
        | Except.ok rec =>
            normKey rec.1 == normKey entityId
              && normKey rec.2 == normKey associateEmail)

/-- A loosely-typed JSON field value, as far as the aggregator needs. -/
inductive JVal
  | s (v : String)
  | n (v : ℚ)
deriving DecidableEq

/-- A JSON object as an association list of fields. -/
abbrev JDict := List (String × JVal)

/-- Python `k in p`. -/
def hasKey (p : JDict) (k : String) : Bool :=
  p.any (fun kv => kv.1 == k)

/-- Python `p.get(k, dflt)`. -/
def getD (p : JDict) (k : String) (dflt : JVal) : JVal :=
  match p.find? (fun kv => kv.1 == k) with
  | some kv => kv.2
  | none => dflt

/-- One row appended to `param_records` (src/Quality_Audit.py lines 231-237);
the Agent and Audit Date columns are irrelevant to the claims and omitted. -/
structure ParamRow where
  parameter : JVal
  score : JVal
  reason : JVal
deriving DecidableEq

/-- The parameter-breakdown extraction of src/Quality_Audit.py lines 227-237:
one row per parameter dict that has all of the keys "Parameter", "Score"
and "Selected Reasons Scored". -/
def param_records (parametersData : List JDict) : List ParamRow :=
  parametersData.foldl
    (fun acc p =>
      if hasKey p "Parameter" && hasKey p "Score"
          && hasKey p "Selected Reasons Scored" then
        acc ++ [{ parameter := getD p "Parameter" (JVal.s "")
                  score := getD p "Score" (JVal.s "")
                  reason := getD p "Selected Reasons Scored" (JVal.s "Compliant") }]
      else acc) []

/-- One entry of the `results` list as serialized by src/app.py lines 346-350:
the form writes the joined reasons under the key "Selected Reasons". -/
def resultEntry (param : String) (selected : List String) (score : ℚ) : JDict :=
  [("Parameter", JVal.s param),
   ("Selected Reasons", JVal.s (String.intercalate ", " selected)),
   ("Score", JVal.n score)]

/-- The raw "Total Score" field of a stored record before
`pd.to_numeric(..., errors="coerce")`. -/
inductive RawScore
  | num (q : ℚ)
  | nonNumeric (v : String)
deriving DecidableEq

/-- `pd.to_numeric(..., errors="coerce")` on one value: numeric values pass
through, non-numeric ones become missing (NaN). -/
def coerceScore : RawScore → Option ℚ
  | RawScore.num q => some q
  | RawScore.nonNumeric _ => none

/-- A stored record as the summary block of src/Quality_Audit.py sees it. -/
structure StoredRecord where
  totalScore : RawScore
deriving DecidableEq

/-- The numeric scores remaining after coercion, which is what pandas' mean
aggregates over. -/
def numericScores (rs : List StoredRecord) : List ℚ :=
  rs.filterMap (fun r => coerceScore r.totalScore)

/-- `total_audits = len(df_filtered)` (src/Quality_Audit.py line 164). -/
def total_audits (rs : List StoredRecord) : Nat := rs.length

/-- `avg_score = df_filtered["Total Score"].mean()` (src/Quality_Audit.py line
163): pandas' mean skips the coerced-to-NaN entries and is itself NaN
(here `none`) when no numeric entry remains. -/
def avg_score (rs : List StoredRecord) : Option ℚ :=
  let xs := numericScores rs
  if xs.isEmpty then none else some (xs.sum / xs.length)

/-- The session flags consulted by the Submit Audit guard
(src/app.py `init_session_state`). -/
structure SessionState where
  email_sent : Bool
  entity_check : Option Bool
deriving DecidableEq

/-- The form inputs flowing into `audit_entry` (src/app.py lines 442-468);
only the fields the claims speak about are kept. -/
structure FormInputs where
  queue : String
  entity_id : String
  associateEmail : String
  audit_type : String
  ztp_flag : String
  final_score : ℚ
  results : List ParamResult
deriving DecidableEq

/-- The persisted audit record: the part of the `audit_entry` dict built at
src/app.py lines 442-468 that the claims mention. "Email Sent" is written
as the literal "Yes" (line 464). -/
structure AuditEntry where
  entityId : String
  associateEmail : String
  auditType : String
  ztpViolation : String
  totalScore : ℚ
  parameters : List JDict
  emailSent : String
deriving DecidableEq

/-- The record-builder part of the Submit Audit branch. -/
def build_audit_entry (f : FormInputs) : AuditEntry :=
  { entityId := f.entity_id
    associateEmail := f.associateEmail
    auditType := f.audit_type
    ztpViolation := f.ztp_flag
    totalScore := f.final_score
    parameters := f.results.map
      (fun r => resultEntry r.parameter r.selectedReasons r.score)
    emailSent := "Yes" }

/-- The outcome of pressing Submit Audit: a rejection persists nothing; only
the `submitted` outcome uploads the record. -/
inductive SubmitOutcome
  | errorEmailNotSent
  | errorDuplicateEntity
  | errorEntityNotChecked
  | submitted (entry : AuditEntry)
deriving DecidableEq

/-- The guard chain of src/app.py lines 434-441 followed by the record build. -/
def submit_audit (session : SessionState) (f : FormInputs) : SubmitOutcome :=
  if !session.email_sent then SubmitOutcome.errorEmailNotSent
  else
    match session.entity_check with
    | some false => SubmitOutcome.errorDuplicateEntity
    | none => SubmitOutcome.errorEntityNotChecked
    | some true => SubmitOutcome.submitted (build_audit_entry f)

/-- C6: the duplicate check returns true iff some record matches both the
ticket id and the associate email under strip-and-lowercase normalization;
the result is invariant under case or surrounding-whitespace changes of
either argument; and a shared ticket id across different associates is not
a duplicate. -/
theorem C6_is_duplicate_entity_spec (t e : List Char) (records : List DupRecord) :
    (is_duplicate_entity t e records = true ↔
      ∃ rec ∈ records, normKey rec.1 = normKey t ∧ normKey rec.2 = normKey e) ∧
    (∀ t2 e2 : List Char, normKey t2 = normKey t → normKey e2 = normKey e →
      is_duplicate_entity t2 e2 records = is_duplicate_entity t e records) ∧
    ((∀ rec ∈ records, normKey rec.2 ≠ normKey e) →
      is_duplicate_entity t e records = false) := by
  refine ⟨?_, ?_, ?_⟩
  · simp [is_duplicate_entity, List.any_eq_true]
  · intro t2 e2 h1 h2
    unfold is_duplicate_entity
    simp only [h1, h2]
  · intro h
    rw [is_duplicate_entity, List.any_eq_false]
    intro rec hrec
    simp only [Bool.and_eq_true, beq_iff_eq, not_and]
    intro _
    exact h rec hrec

theorem C6_witness :
    is_duplicate_entity ("ABC-1 ".toList) ("X@Y.com".toList)
        [("abc-1".toList, "x@y.com".toList)]
      = is_duplicate_entity ("abc-1".toList) (" x@y.com ".toList)
        [("abc-1".toList, "x@y.com".toList)] :=
  (C6_is_duplicate_entity_spec ("abc-1".toList) (" x@y.com ".toList)
      [("abc-1".toList, "x@y.com".toList)]).2.1
    ("ABC-1 ".toList) ("X@Y.com".toList) (by decide) (by decide)

/-- C7 as stated is false: a connectivity failure while reading an individual
record is swallowed by the bare `except: continue`, so the check answers
`ok false` ("no duplicate") even when the unreadable record is the very one
that would have matched. -/
theorem C7_counterexample :
    is_duplicate_entity_io ("T-1".toList) ("a@b.com".toList)
        (Except.ok [Except.error StoreErr.connectivity]) = Except.ok false ∧
    is_duplicate_entity_io ("T-1".toList) ("a@b.com".toList)
        (Except.ok [Except.ok ("T-1".toList, "a@b.com".toList)])
      = Except.ok true :=
  ⟨rfl, rfl⟩

/-- C7 amended: if the record source cannot be LISTED, the error propagates
and the check never turns that failure into "no duplicate"; but a failure
reading an individual record is silently skipped and the scan continues
over the remaining records (and can therefore report false). -/
theorem C7_amended (t e : List Char) (err : StoreErr)
    (blobs : List (Except StoreErr DupRecord)) :
    is_duplicate_entity_io t e (Except.error err) = Except.error err ∧
    is_duplicate_entity_io t e (Except.ok (Except.error err :: blobs))
      = is_duplicate_entity_io t e (Except.ok blobs) := by
  constructor
  · rfl
  · simp [is_duplicate_entity_io, List.any_cons]

/-- C8: the aggregator's key check (src/Quality_Audit.py line 230) requires
"Selected Reasons Scored"; a parameter entry written by the form — which
uses the key "Selected Reasons" (src/app.py line 348) — contributes zero
rows, while the same data under the "Selected Reasons Scored" key
contributes its row. The claim (both variants accepted) is the documented
intent; the code drops one variant. -/
theorem C8_failing_eval :
    param_records [resultEntry "Opening and Closing" ["Compliant"] 9] = [] ∧
    param_records [[("Parameter", JVal.s "Opening and Closing"),
                    ("Score", JVal.n 9),
                    ("Selected Reasons Scored", JVal.s "Compliant")]]
      = [{ parameter := JVal.s "Opening and Closing"
           score := JVal.n 9
           reason := JVal.s "Compliant" }] :=
  ⟨rfl, rfl⟩

/-- C9: appending a record whose "Total Score" is non-numeric leaves the mean
unchanged (it is excluded from the mean computation) while the total audit
count grows by one. -/
theorem C9_nonnumeric_missing (rs : List StoredRecord) (v : String) :
    total_audits (rs ++ [⟨RawScore.nonNumeric v⟩]) = total_audits rs + 1 ∧
    avg_score (rs ++ [⟨RawScore.nonNumeric v⟩]) = avg_score rs := by
  constructor
  · simp [total_audits]
  · have h : numericScores (rs ++ [⟨RawScore.nonNumeric v⟩]) = numericScores rs := by
      simp [numericScores, List.filterMap_append, coerceScore]
    simp only [avg_score, h]

/-- C10: if the email-sent flag is not set, Submit Audit is rejected with the
email error and nothing is persisted; and every record the form persists
carries "Email Sent": "Yes". -/
theorem C10_email_gate (session : SessionState) (f : FormInputs) :
    (session.email_sent = false →
      submit_audit session f = SubmitOutcome.errorEmailNotSent) ∧
    (∀ entry : AuditEntry, submit_audit session f = SubmitOutcome.submitted entry →
      entry.emailSent = "Yes") := by
  constructor
  · intro h
    simp [submit_audit, h]
  · intro entry he
    obtain ⟨es, ec⟩ := session
    cases es
    · simp [submit_audit] at he
    · cases ec with
      | none => simp [submit_audit] at he
      | some b =>
        cases b
        · simp [submit_audit] at he
        · simp [submit_audit] at he
          rw [← he]
          exact rfl

/-- A concrete form filling used below. -/
def sampleForm : FormInputs :=
  { queue := "Inbound"
    entity_id := "FD-100"
    associateEmail := "a@b.com"
    audit_type := "Hygiene"
    ztp_flag := "No"
    final_score := 100
    results := [⟨"Opening and Closing", ["Compliant"], 9⟩] }

theorem C10_witness :
    submit_audit ⟨false, some true⟩ sampleForm = SubmitOutcome.errorEmailNotSent ∧
    (build_audit_entry sampleForm).emailSent = "Yes" :=
  ⟨(C10_email_gate ⟨false, some true⟩ sampleForm).1 rfl,
   (C10_email_gate ⟨true, some true⟩ sampleForm).2 (build_audit_entry sampleForm) rfl⟩

end QualityAudit
